import Mathlib

set_option linter.unusedVariables false

/-! Shallow embedding of the i4NS LENS backend (mission_parser.py, models.py,
doctrine_indexer.py, rag_pipeline.py).  Python floats are modelled as ℚ,
`datetime.datetime` as the `DateTime` structure below, dictionaries as
association lists, and fallible code as `Except`. -/

/-- Calendar date-time value, modelling Python's naive `datetime.datetime`
(year, month, day, hour, minute, second, microsecond). -/
structure DateTime where
  year : Int
  month : Nat
  day : Nat
  hour : Nat
  minute : Nat
  second : Nat
  microsecond : Nat
deriving DecidableEq, Repr

/-- Gregorian leap-year test, as used by Python's `datetime`. -/
def isLeapYear (y : Int) : Bool :=
  y % 4 == 0 && (y % 100 != 0 || y % 400 == 0)

/-- Number of days in month `m` (1-12) of year `y`. -/
def daysInMonth (y : Int) (m : Nat) : Nat :=
  if m = 2 then (if isLeapYear y then 29 else 28)
  else if m = 4 ∨ m = 6 ∨ m = 9 ∨ m = 11 then 30
  else 31

/-- Conversion from a count of days since 1970-01-01 to a proleptic Gregorian
civil date (year, month, day); standard era-based algorithm, used to model the
calendar arithmetic inside Python's `datetime.fromtimestamp`. -/
def civilFromDays (z0 : Int) : Int × Int × Int :=
  let z := z0 + 719468
  let era : Int := (if 0 ≤ z then z else z - 146096) / 146097
  let doe : Int := z - era * 146097
  let yoe : Int := (doe - doe / 1460 + doe / 36524 - doe / 146096) / 365
  let y : Int := yoe + era * 400
  let doy : Int := doe - (365 * yoe + yoe / 4 - yoe / 100)
  let mp : Int := (5 * doy + 2) / 153
  let d : Int := doy - (153 * mp + 2) / 5 + 1
  let m : Int := if mp < 10 then mp + 3 else mp - 9
  (if m ≤ 2 then y + 1 else y, m, d)

/-- Modelled from the Python standard library: `datetime.fromtimestamp`
converts a numeric Unix epoch to a `datetime`.  We interpret the epoch in UTC
(the source uses the process-local timezone) and truncate, rather than round,
to whole microseconds; no claim depends on the converted value. -/
def fromtimestamp (q : ℚ) : DateTime :=
  let total : Int := Rat.floor q
  let days : Int := Int.fdiv total 86400
  let sod : Int := total - days * 86400
  let c := civilFromDays days
  let us : Int := Rat.floor ((q - (total : ℚ)) * 1000000)
  { year := c.1, month := c.2.1.toNat, day := c.2.2.toNat,
    hour := (sod / 3600).toNat, minute := ((sod / 60) % 60).toNat,
    second := (sod % 60).toNat, microsecond := us.toNat }

/-- Decimal value of a digit character, `none` on non-digits. -/
def digitVal (c : Char) : Option Nat :=
  if c.isDigit then some (c.toNat - 48) else none

/-- Greedily consume up to `k` leading digit characters, returning the
accumulated value, the count of digits consumed, and the rest of the input.
Used for the `%f` directive of `strptime` (1 to 6 fractional digits). -/
def takeDigitsAcc : Nat → Nat → Nat → List Char → Nat × Nat × List Char
| 0, acc, n, cs => (acc, n, cs)
| Nat.succ k, acc, n, cs =>
  match cs with
  | [] => (acc, n, cs)
  | c :: rest =>
    match digitVal c with
    | some d => takeDigitsAcc k (acc * 10 + d) (n + 1) rest
    | none => (acc, n, cs)

/-- The `%Y` directive of CPython's `strptime`: exactly four digit characters. -/
def parseYear4 : List Char → Option (Nat × List Char)
| c1 :: c2 :: c3 :: c4 :: rest =>
  match digitVal c1, digitVal c2, digitVal c3, digitVal c4 with
  | some a, some b, some c, some d => some (1000 * a + 100 * b + 10 * c + d, rest)
  | _, _, _, _ => none
| _ => none

/-- A one-or-two-digit numeric `strptime` field.  CPython's regex for `%m`,
`%d`, `%H`, `%M`, `%S` prefers a two-digit match when its value lies in
`[lo2, hi]` and otherwise falls back to a single digit of value at least
`lo1`; for the five formats the parser tries, every such field is followed by
a non-digit literal or the end of input, so this backtracking-free reading is
equivalent to the regex. -/
def parseField2 (lo1 lo2 hi : Nat) : List Char → Option (Nat × List Char)
| [] => none
| c1 :: rest1 =>
  match digitVal c1 with
  | none => none
  | some a =>
    match rest1 with
    | c2 :: rest2 =>
      match digitVal c2 with
      | some b =>
        let v := 10 * a + b
        if lo2 ≤ v ∧ v ≤ hi then some (v, rest2)
        else if lo1 ≤ a then some (a, rest1) else none
      | none => if lo1 ≤ a then some (a, rest1) else none
    | [] => if lo1 ≤ a then some (a, rest1) else none

/-- One directive of a `strptime` format string: a literal character or one of
the numeric directives `%Y %m %d %H %M %S %f` used by `parse_timestamp`. -/
inductive FmtTok where
| lit (c : Char)
| y4
| mo
| dy
| hr
| mi
| se
| fr
deriving DecidableEq, Repr

/-- Fields recovered by `strptime` before validation, with CPython's default
values (year 1900, January 1st, midnight). -/
structure TmFields where
  y : Nat := 1900
  mo : Nat := 1
  dy : Nat := 1
  hr : Nat := 0
  mi : Nat := 0
  se : Nat := 0
  us : Nat := 0
deriving DecidableEq, Repr

/-- Modelled from the Python standard library: the matching phase of
`datetime.strptime` for the directives used by `parse_timestamp`.  The whole
input must be consumed ("unconverted data remains" is a failure). -/
def runFmt : List FmtTok → List Char → TmFields → Option TmFields
| [], [], st => some st
| [], _ :: _, _ => none
| .lit c :: ts, cs, st =>
  match cs with
  | [] => none
  | x :: rest => if x = c then runFmt ts rest st else none
| .y4 :: ts, cs, st =>
  match parseYear4 cs with
  | some (v, rest) => runFmt ts rest { st with y := v }
  | none => none
| .mo :: ts, cs, st =>
  match parseField2 1 1 12 cs with
  | some (v, rest) => runFmt ts rest { st with mo := v }
  | none => none
| .dy :: ts, cs, st =>
  match parseField2 1 1 31 cs with
  | some (v, rest) => runFmt ts rest { st with dy := v }
  | none => none
| .hr :: ts, cs, st =>
  match parseField2 0 0 23 cs with
  | some (v, rest) => runFmt ts rest { st with hr := v }
  | none => none
| .mi :: ts, cs, st =>
  match parseField2 0 0 59 cs with
  | some (v, rest) => runFmt ts rest { st with mi := v }
  | none => none
| .se :: ts, cs, st =>
  match parseField2 0 0 61 cs with
  | some (v, rest) => runFmt ts rest { st with se := v }
  | none => none
| .fr :: ts, cs, st =>
  match takeDigitsAcc 6 0 0 cs with
  | (v, n, rest) =>
    if n = 0 then none
    else runFmt ts rest { st with us := v * 10 ^ (6 - n) }

/-- Validation performed by the `datetime` constructor after matching:
year at least 1 (`MINYEAR`), day within the month, seconds below 60. -/
def tmValidate (t : TmFields) : Option DateTime :=
  if 1 ≤ t.y ∧ t.dy ≤ daysInMonth (t.y : Int) t.mo ∧ t.se ≤ 59 then
    some { year := (t.y : Int), month := t.mo, day := t.dy,
           hour := t.hr, minute := t.mi, second := t.se, microsecond := t.us }
  else none

/-- Modelled from the Python standard library: `datetime.strptime` with one of
the five fixed formats of `MissionLogParser.parse_timestamp`. -/
def strptime (fmt : List FmtTok) (s : String) : Option DateTime :=
  (runFmt fmt s.toList {}).bind tmValidate

/-- The source format string "%Y-%m-%dT%H:%M:%S.%fZ". -/
def fmtIsoFracZ : List FmtTok :=
  [.y4, .lit '-', .mo, .lit '-', .dy, .lit 'T', .hr, .lit ':', .mi, .lit ':',
   .se, .lit '.', .fr, .lit 'Z']

/-- The source format string "%Y-%m-%dT%H:%M:%SZ". -/
def fmtIsoZ : List FmtTok :=
  [.y4, .lit '-', .mo, .lit '-', .dy, .lit 'T', .hr, .lit ':', .mi, .lit ':',
   .se, .lit 'Z']

/-- The source format string "%Y-%m-%d %H:%M:%S". -/
def fmtSpace : List FmtTok :=
  [.y4, .lit '-', .mo, .lit '-', .dy, .lit ' ', .hr, .lit ':', .mi, .lit ':',
   .se]

/-- The source format string "%Y-%m-%d %H:%M:%S.%f". -/
def fmtSpaceFrac : List FmtTok :=
  [.y4, .lit '-', .mo, .lit '-', .dy, .lit ' ', .hr, .lit ':', .mi, .lit ':',
   .se, .lit '.', .fr]

/-- The source format string "%m/%d/%Y %H:%M:%S". -/
def fmtUS : List FmtTok :=
  [.mo, .lit '/', .dy, .lit '/', .y4, .lit ' ', .hr, .lit ':', .mi, .lit ':',
   .se]

/-- The `formats` list of `MissionLogParser.parse_timestamp`, in source order. -/
def timestampFormats : List (List FmtTok) :=
  [fmtIsoFracZ, fmtIsoZ, fmtSpace, fmtSpaceFrac, fmtUS]

/-- The `for fmt in formats: try ... except ValueError: continue` loop of
`parse_timestamp`: first format that matches wins. -/
def tryFormats : List (List FmtTok) → String → Option DateTime
| [], _ => none
| f :: fs, s =>
  match strptime f s with
  | some d => some d
  | none => tryFormats fs s

/-- A JSON-level timestamp value as received by `parse_timestamp`: an already
constructed `datetime`, a string, a number (Python `int`/`float`, modelled as
ℚ; note Python treats `bool` as a numeric type), or any other value (null,
list, object, ...). -/
inductive TsIn where
| dt (d : DateTime)
| str (s : String)
| num (x : ℚ)
| other
deriving DecidableEq, Repr

/-- MissionLogParser.parse_timestamp (mission_parser.py lines 16-39): pass
`datetime` values through, try the five formats on strings, treat numbers as
Unix epochs, and raise on anything else.  Out-of-range epochs (beyond year
9999) raise platform-dependently in CPython; the model abstracts that and
treats every numeric epoch as convertible. -/
def parse_timestamp : TsIn → Except String DateTime
| .dt d => .ok d
| .str s =>
  match tryFormats timestampFormats s with
  | some d => .ok d
  | none => .error ("Could not parse timestamp: " ++ s)
| .num x => .ok (fromtimestamp x)
| .other => .error "Unknown timestamp format"

/-! Data model (models.py).  Pydantic models become structures; Python floats
become ℚ; the open `Dict[str, Any]` metadata maps are modelled as association
lists of strings, which is all the pipeline ever reads from them. -/

/-- models.MissionEvent (models.py lines 10-20).  `timestamp` is a required,
non-optional field, exactly as in the pydantic model. -/
structure MissionEvent where
  timestamp : DateTime
  event_type : String
  description : String
  tracking_number : Option String := none
  speed : Option ℚ := none
  course : Option ℚ := none
  latitude : Option ℚ := none
  longitude : Option ℚ := none
  metadata : List (String × String) := []
deriving DecidableEq, Repr

/-- The attributes of an event that `_determine_compliance` reads.  Python is
dynamically typed and the function guards `event.timestamp is not None`, so
the view keeps the timestamp optional; a well-typed `MissionEvent` always
supplies `some` (see `MissionEvent.view`). -/
structure EventView where
  event_type : String
  timestamp : Option DateTime
  tracking_number : Option String
  speed : Option ℚ
deriving DecidableEq, Repr

/-- The view of a well-typed `MissionEvent` as seen by `_determine_compliance`:
its required timestamp is always present. -/
def MissionEvent.view (e : MissionEvent) : EventView :=
  { event_type := e.event_type, timestamp := some e.timestamp,
    tracking_number := e.tracking_number, speed := e.speed }

/-- A JSON mission-log event object as consumed by `parse_event`
(mission_parser.py lines 41-54): each field is either absent (`none`) or a
well-typed value as described in the spec's external-interface section. -/
structure EventData where
  timestamp : Option TsIn := none
  event_type : Option String := none
  description : Option String := none
  tracking_number : Option String := none
  speed : Option ℚ := none
  course : Option ℚ := none
  latitude : Option ℚ := none
  longitude : Option ℚ := none
  metadata : Option (List (String × String)) := none
deriving DecidableEq, Repr

/-- A JSON mission-log object as consumed by `parse_json_data`
(mission_parser.py lines 64-77). -/
structure MissionData where
  mission_id : Option String := none
  mission_name : Option String := none
  vessel_name : Option String := none
  start_time : Option TsIn := none
  end_time : Option TsIn := none
  events : Option (List EventData) := none
deriving DecidableEq, Repr

/-- models.MissionLog (models.py lines 23-31). -/
structure MissionLog where
  mission_id : String
  mission_name : String
  start_time : DateTime
  end_time : Option DateTime := none
  vessel_name : String
  events : List MissionEvent
  raw_data : Option MissionData := none
deriving DecidableEq, Repr

/-- models.DoctrineReference (models.py lines 34-40). -/
structure DoctrineReference where
  doctrine_id : String
  doctrine_name : String
  «section» : String
  requirement : String
  context : String
deriving DecidableEq, Repr

/-- models.ComparisonResult (models.py lines 43-52). -/
structure ComparisonResult where
  timestamp : DateTime
  event_description : String
  actual_action : String
  expected_action : String
  compliance_status : String
  doctrine_references : List DoctrineReference
  analysis : String
  severity : Option String := none
deriving DecidableEq, Repr

/-- models.MissionAnalysis (models.py lines 55-64).  The pydantic model fills
`timestamp` with `datetime.now()`; the embedding receives that clock value as
an argument of `analyze_mission`. -/
structure MissionAnalysis where
  mission_id : String
  mission_name : String
  timestamp : DateTime
  comparisons : List ComparisonResult
  summary : String
  lessons_learned : List String
  recommendations : List String
  overall_compliance_score : Option ℚ := none
deriving DecidableEq, Repr

/-- MissionLogParser.parse_event (mission_parser.py lines 41-54):
`event_data["timestamp"]` raises `KeyError` when absent, `parse_timestamp` may
raise, and every other field is read with `.get` and a default. -/
def parse_event (ed : EventData) : Except String MissionEvent :=
  match ed.timestamp with
  | none => .error "KeyError: timestamp"
  | some ts =>
    match parse_timestamp ts with
    | .error e => .error e
    | .ok t =>
      .ok { timestamp := t,
            event_type := ed.event_type.getD "unknown",
            description := ed.description.getD "",
            tracking_number := ed.tracking_number,
            speed := ed.speed,
            course := ed.course,
            latitude := ed.latitude,
            longitude := ed.longitude,
            metadata := ed.metadata.getD [] }

/-- The list comprehension `[cls.parse_event(event) for event in
data.get("events", [])]` of `parse_json_data`: sequential, failing as a whole
as soon as one event fails. -/
def parse_events : List EventData → Except String (List MissionEvent)
| [] => .ok []
| e :: es =>
  match parse_event e with
  | .error m => .error m
  | .ok v =>
    match parse_events es with
    | .error m => .error m
    | .ok vs => .ok (v :: vs)

/-- MissionLogParser.parse_json_data (mission_parser.py lines 64-77): parses
all events first, then builds the `MissionLog`; `data["start_time"]` raises
`KeyError` when absent, and `end_time` is parsed only when present. -/
def parse_json_data (data : MissionData) : Except String MissionLog :=
  match parse_events (data.events.getD []) with
  | .error m => .error m
  | .ok evs =>
    match (match data.start_time with
           | none => Except.error "KeyError: start_time"
           | some t => parse_timestamp t) with
    | .error m => .error m
    | .ok st =>
      match (match data.end_time with
             | none => Except.ok (Option.none : Option DateTime)
             | some t =>
               match parse_timestamp t with
               | .error m => Except.error m
               | .ok v => Except.ok (some v)) with
      | .error m => .error m
      | .ok et =>
        .ok { mission_id := data.mission_id.getD "unknown",
              mission_name := data.mission_name.getD "Unnamed Mission",
              start_time := st,
              end_time := et,
              vessel_name := data.vessel_name.getD "Unknown Vessel",
              events := evs,
              raw_data := some data }

/-! Doctrine store (doctrine_indexer.py).  A langchain `Document` carries text
plus a metadata map; the FAISS flat-L2 store is modelled as the list of
(embedding vector, document) pairs in insertion order together with the
embedding function, and `similarity_search` as exact k-nearest-neighbour
search by squared euclidean distance, its documented contract. -/

/-- A langchain `Document`: chunk text plus string metadata. -/
structure Document where
  page_content : String
  metadata : List (String × String) := []
deriving DecidableEq, Repr

/-- Python's `doc.metadata.get(key, dflt)`. -/
def Document.metaGet (d : Document) (key dflt : String) : String :=
  (d.metadata.lookup key).getD dflt

/-- Squared euclidean distance between two embedding vectors. -/
def sqDist (u v : List ℚ) : ℚ :=
  (List.zipWith (fun a b => (a - b) * (a - b)) u v).sum

/-- Comparison of scored documents by distance, the order in which a flat-L2
index returns its neighbours. -/
def distLE (a b : ℚ × Document) : Prop := a.1 ≤ b.1

instance : DecidableRel distLE := fun a b => inferInstanceAs (Decidable (a.1 ≤ b.1))

instance : IsTotal (ℚ × Document) distLE := ⟨fun a b => le_total a.1 b.1⟩

instance : IsTrans (ℚ × Document) distLE := ⟨fun _ _ _ h h' => le_trans h h'⟩

/-- The FAISS vector store built by `create_vector_store`: stored embeddings
with their documents in insertion order, plus the embedding function used for
queries. -/
structure VectorStore where
  embed : String → List ℚ
  entries : List (List ℚ × Document)

/-- Every stored document scored against a query by squared L2 distance, in
insertion order. -/
def scoredEntries (vs : VectorStore) (query : String) : List (ℚ × Document) :=
  vs.entries.map (fun p => (sqDist (vs.embed query) p.1, p.2))

/-- Modelled from the FAISS/langchain contract: `similarity_search(query, k)`
embeds the query and returns the k stored documents nearest to it by squared
euclidean distance (ties by insertion order, which a stable sort preserves). -/
def similarity_search (vs : VectorStore) (query : String) (k : Nat) : List Document :=
  ((scoredEntries vs query).insertionSort distLE).take k |>.map Prod.snd

/-- The mutable state of `DoctrineIndexer`: `__init__` sets
`self.vector_store = None`; `index_doctrines` installs a store. -/
structure DoctrineIndexer where
  vector_store : Option VectorStore := none

/-- DoctrineIndexer.search (doctrine_indexer.py lines 169-174): raises
`ValueError` (the spec's NotIndexedError) while `vector_store is None`,
otherwise delegates to the vector store's similarity search. -/
def DoctrineIndexer.search (st : DoctrineIndexer) (query : String) (k : Nat) :
    Except String (List Document) :=
  match st.vector_store with
  | none => .error "Vector store not initialized. Call index_doctrines() first."
  | some vs => .ok (similarity_search vs query k)

/-! Compliance rule engine and pipeline nodes (rag_pipeline.py). -/

/-- MissionAnalysisRAG._determine_compliance (rag_pipeline.py lines 221-249),
on the attribute view of an event. -/
def determine_compliance (e : EventView) : String :=
  let has_tracking := e.tracking_number.isSome
  let has_timestamp := e.timestamp.isSome
  if e.event_type = "speed_change" then
    if has_tracking ∧ has_timestamp ∧ e.speed.isSome then "compliant"
    else if has_timestamp then "partial"
    else "non-compliant"
  else if e.event_type = "contact_detection" then
    if has_tracking ∧ has_timestamp then "compliant"
    else "non-compliant"
  else "unclear"

/-- MissionAnalysisRAG._determine_severity (rag_pipeline.py lines 251-259):
fixed dictionary lookup with default "minor". -/
def determine_severity (compliance_status : String) : String :=
  (([("compliant", "info"), ("partial", "minor"),
     ("non-compliant", "major"), ("unclear", "minor")] :
      List (String × String)).lookup compliance_status).getD "minor"

/-- MissionAnalysisRAG._get_expected_action_for_event (rag_pipeline.py lines
196-219): fixed per-event-type table with a generic default; the retrieved
doctrine text is accepted but unused, as in the source. -/
def get_expected_action_for_event (event : MissionEvent) (doctrine_text : String) :
    String :=
  (([("speed_change", "Log timestamp, previous speed, new speed, reason, and tracking number. Changes > 5 knots require communication to all stations."),
     ("course_change", "Log timestamp, previous course, new course, and tracking number. Notify navigation team for changes > 10 degrees."),
     ("contact_detection", "Assign tracking number immediately. Log bearing, range, timestamp, and classification. Maintain continuous tracking."),
     ("man_overboard", "Sound alarm, reduce speed to 5 knots, mark position with GPS timestamp, deploy recovery equipment."),
     ("mission_start", "Log start time (UTC), record initial position, document objectives, verify systems."),
     ("mission_end", "Log completion time, record final position, document outcomes, prepare debrief.")] :
      List (String × String)).lookup event.event_type).getD
    "Follow standard operational procedures and maintain detailed logs."

/-- MissionAnalysisRAG._generate_event_analysis (rag_pipeline.py lines
261-280): templated analysis text per compliance status. -/
def generate_event_analysis (event : MissionEvent) (expected actual compliance : String) :
    String :=
  if compliance = "compliant" then
    "Event '" ++ event.event_type ++ "' was properly documented with all required information including tracking number and timestamp. This follows doctrine requirements."
  else if compliance = "partial" then
    "Event '" ++ event.event_type ++ "' was logged but missing some required information (e.g., tracking number). Recommend ensuring all events include complete documentation per doctrine."
  else if compliance = "non-compliant" then
    "Event '" ++ event.event_type ++ "' did not meet doctrine requirements. Missing critical information such as tracking number or complete timestamp data. This should be addressed in future operations."
  else
    "Unable to fully determine compliance for event '" ++ event.event_type ++ "'. Recommend manual review against doctrine requirements."

/-- MissionAnalysisRAG._analyze_event_against_doctrine (rag_pipeline.py lines
150-194): always returns a result (`Optional` in the signature only). -/
def analyze_event_against_doctrine (event : MissionEvent) (doctrine_text : String)
    (doctrine_docs : List Document) : Option ComparisonResult :=
  let expected_action := get_expected_action_for_event event doctrine_text
  let actual_action := event.description
  let compliance_status := determine_compliance event.view
  let doctrine_refs : List DoctrineReference :=
    (doctrine_docs.take 2).map (fun doc =>
      { doctrine_id := doc.metaGet "source_file" "unknown",
        doctrine_name := doc.metaGet "source_file" "Naval Doctrine",
        «section» := "General",
        requirement := doc.page_content.take 200,
        context := doc.page_content })
  some { timestamp := event.timestamp,
         event_description := event.description,
         actual_action := actual_action,
         expected_action := expected_action,
         compliance_status := compliance_status,
         doctrine_references := doctrine_refs,
         analysis := generate_event_analysis event expected_action actual_action
           compliance_status,
         severity := some (determine_severity compliance_status) }

/-- MissionAnalysisRAG._analyze_events_node (rag_pipeline.py lines 83-95):
returns an empty comparison list and the head event (or `None`); it raises
nothing, in particular it performs no has-events validation. -/
def analyze_events_node (log : MissionLog) :
    Except String (List ComparisonResult × Option MissionEvent) :=
  .ok ([], log.events.head?)

/-- The deduplication loop of `_retrieve_doctrine_node` (rag_pipeline.py lines
113-119): keep a document when its `page_content` has not been seen yet; the
`seen_content` set is modelled as the list of texts already kept. -/
def dedup_go : List Document → List String → List Document
| [], _ => []
| d :: ds, seen =>
  if d.page_content ∈ seen then dedup_go ds seen
  else d :: dedup_go ds (d.page_content :: seen)

/-- The query string `f"{event.event_type}: {event.description}"`. -/
def event_query (e : MissionEvent) : String :=
  e.event_type ++ ": " ++ e.description

/-- MissionAnalysisRAG._retrieve_doctrine_node (rag_pipeline.py lines 97-123):
one search per event for at most the first five events (`[:5]`), k = 3,
results concatenated in order and deduplicated by exact chunk text.  The
indexer's search is passed in as the function `sf`. -/
def retrieve_doctrine_node (sf : String → Nat → List Document) (log : MissionLog) :
    List Document :=
  let event_descriptions := log.events.map event_query
  let all_doctrine_docs := (event_descriptions.take 5).flatMap (fun d => sf d 3)
  dedup_go all_doctrine_docs []

/-- The combined doctrine context string of `_compare_actions_node`
(rag_pipeline.py lines 131-135). -/
def doctrine_text_of (ctx : List Document) : String :=
  String.intercalate "\n\n"
    (ctx.enum.map (fun p =>
      "DOCTRINE PASSAGE " ++ toString (p.1 + 1) ++ ":\n" ++ p.2.page_content))

/-- MissionAnalysisRAG._compare_actions_node (rag_pipeline.py lines 125-148):
one comparison per event of the whole log; `if comparison:` keeps every
produced result (pydantic model instances are always truthy). -/
def compare_actions_node (ctx : List Document) (log : MissionLog) :
    List ComparisonResult :=
  let doctrine_text := doctrine_text_of ctx
  log.events.filterMap (fun e => analyze_event_against_doctrine e doctrine_text ctx)

/-- The counting pattern `sum(1 for c in comparison_results if
c.compliance_status == s)` of `_generate_summary_node`. -/
def count_status (l : List ComparisonResult) (s : String) : Nat :=
  l.countP (fun c => c.compliance_status == s)

/-- The guarded compliance score of `_generate_summary_node` (rag_pipeline.py
line 293): `(compliant / total_events * 100) if total_events > 0 else 0`. -/
def summary_compliance_score (l : List ComparisonResult) : ℚ :=
  if 0 < l.length then (count_status l "compliant" : ℚ) / (l.length : ℚ) * 100
  else 0

/-- Rendering of a rational with one decimal place, standing in for Python's
`:.1f` float format (the exact rounding of the rendered text is irrelevant to
every claim). -/
def fmt1f (q : ℚ) : String :=
  let t : Int := Rat.floor (q * 10 + 1 / 2)
  toString (t / 10) ++ "." ++ toString ((t % 10).toNat)

/-- Zero-padded two-digit rendering of a field of `str(datetime)`. -/
def pad2 (n : Nat) : String :=
  if n < 10 then "0" ++ toString n else toString n

/-- Python's `str(datetime)` rendering, used by the summary f-string. -/
def dtStr (d : DateTime) : String :=
  toString d.year ++ "-" ++ pad2 d.month ++ "-" ++ pad2 d.day ++ " " ++
    pad2 d.hour ++ ":" ++ pad2 d.minute ++ ":" ++ pad2 d.second

/-- The summary f-string of `_generate_summary_node` (rag_pipeline.py lines
296-305) for a non-empty comparison list.  Note the source bug kept verbatim:
the text ` if total_events > 0 else 0)` is literal text outside the braces, so
the interpolation `{compliant/total_events*100:.1f}` is unguarded. -/
def mk_summary (log : MissionLog) (total c p nc : Nat) (score : ℚ) : String :=
  "Mission Analysis Summary for " ++ log.mission_name ++
  "\n\nTotal Events Analyzed: " ++ toString total ++
  "\nCompliant: " ++ toString c ++ " (" ++ fmt1f ((c : ℚ) / (total : ℚ) * 100) ++
  "% if total_events > 0 else 0)" ++
  "\nPartial Compliance: " ++ toString p ++
  "\nNon-Compliant: " ++ toString nc ++
  "\nOverall Compliance Score: " ++ fmt1f score ++ "%" ++
  "\n\nThe mission was conducted aboard " ++ log.vessel_name ++ " from " ++
  dtStr log.start_time ++ " to " ++
  (match log.end_time with
   | some e => dtStr e
   | none => "ongoing") ++ "\n"

/-- The lessons-learned block of `_generate_summary_node` (rag_pipeline.py
lines 307-321), as a pure function of the comparison list. -/
def lessons_learned_of (l : List ComparisonResult) : List String :=
  let nc := count_status l "non-compliant"
  let p := count_status l "partial"
  let c := count_status l "compliant"
  (if 0 < nc then
    [toString nc ++ " events did not meet doctrine requirements - ensure proper documentation procedures are followed"]
   else []) ++
  (if 0 < p then
    [toString p ++ " events had partial compliance - review checklist for complete event logging"]
   else []) ++
  (if c = l.length then
    ["All events properly documented according to doctrine - excellent adherence to procedures"]
   else [])

/-- The recommendations block of `_generate_summary_node` (rag_pipeline.py
lines 322-328), as a pure function of the comparison list. -/
def recommendations_of (l : List ComparisonResult) : List String :=
  (if 0 < count_status l "non-compliant" ∨ 0 < count_status l "partial" then
    ["Conduct refresher training on event documentation requirements",
     "Implement pre-mission checklist review of documentation procedures"]
   else []) ++
  ["Continue post-mission debriefs to reinforce lessons learned"]

/-- MissionAnalysisRAG._generate_summary_node (rag_pipeline.py lines 282-334):
the summary f-string evaluates `compliant/total_events*100` unguarded, so with
zero comparisons the node raises `ZeroDivisionError` before any lessons or
recommendations are built; otherwise it returns (summary, lessons learned,
recommendations). -/
def generate_summary_node (comps : List ComparisonResult) (log : MissionLog) :
    Except String (String × List String × List String) :=
  let total := comps.length
  let c := count_status comps "compliant"
  let p := count_status comps "partial"
  let nc := count_status comps "non-compliant"
  let score := summary_compliance_score comps
  if total = 0 then .error "ZeroDivisionError: division by zero"
  else .ok (mk_summary log total c p nc score,
            lessons_learned_of comps, recommendations_of comps)

/-- The defensive recomputation of the score in `analyze_mission`
(rag_pipeline.py lines 355-361): `if comparisons: compliant_count/len*100 else
0.0`. -/
def overall_score_of (comps : List ComparisonResult) : ℚ :=
  if comps = [] then 0
  else (count_status comps "compliant" : ℚ) / (comps.length : ℚ) * 100

/-- MissionAnalysisRAG.analyze_mission (rag_pipeline.py lines 336-374): runs
the four graph nodes in their fixed linear order, then packages the final
state, recomputing the overall compliance score from the final comparison
list.  `sf` is the doctrine search, `now` the construction-time clock value of
the pydantic `timestamp` default. -/
def analyze_mission (sf : String → Nat → List Document) (now : DateTime)
    (log : MissionLog) : Except String MissionAnalysis :=
  match analyze_events_node log with
  | .error m => .error m
  | .ok _ =>
    let ctx := retrieve_doctrine_node sf log
    let comps := compare_actions_node ctx log
    match generate_summary_node comps log with
    | .error m => .error m
    | .ok out =>
      .ok { mission_id := log.mission_id,
            mission_name := log.mission_name,
            timestamp := now,
            comparisons := comps,
            summary := out.1,
            lessons_learned := out.2.1,
            recommendations := out.2.2,
            overall_compliance_score := some (overall_score_of comps) }

/-! Specification-side definitions, written from the spec's words, used to
compare against the source-derived functions above. -/

/-- The classification table exactly as the claim words it: for speed_change,
"partial" only when the timestamp is the only one of the three fields present.
This is the claim's reading, to be compared with `determine_compliance`. -/
def spec_claimed_compliance (e : EventView) : String :=
  if e.event_type = "speed_change" then
    if e.tracking_number.isSome ∧ e.timestamp.isSome ∧ e.speed.isSome then "compliant"
    else if e.timestamp.isSome ∧ e.tracking_number = none ∧ e.speed = none then "partial"
    else "non-compliant"
  else if e.event_type = "contact_detection" then
    if e.tracking_number.isSome ∧ e.timestamp.isSome then "compliant"
    else "non-compliant"
  else "unclear"

/-- Deduplication as the spec words it: each distinct element once, in order
of first occurrence. -/
def firstSeenDedup : List String → List String
| [] => []
| a :: l => a :: firstSeenDedup (l.filter (fun b => b != a))
termination_by l => l.length
decreasing_by
  simp only [List.length_cons]
  exact Nat.lt_succ_of_le (List.length_filter_le _ _)

/-- Helper: a fixed timestamp used by concrete instances. -/
def dt0 : DateTime := ⟨2024, 11, 14, 8, 0, 0, 0⟩

/-- Helper: the concrete event view refuting the claimed C1 table: a
speed_change with a timestamp and a speed but no tracking number. -/
def c1view : EventView :=
  { event_type := "speed_change", timestamp := some dt0,
    tracking_number := none, speed := some 15 }

/-- Helper: a concrete mission log with one compliant contact_detection
event. -/
def log1 : MissionLog :=
  { mission_id := "M1", mission_name := "Test Mission", start_time := dt0,
    vessel_name := "USS Example",
    events := [{ timestamp := dt0, event_type := "contact_detection",
                 description := "Surface contact detected",
                 tracking_number := some "TRK-002" }] }

/-- Helper: a concrete mission log with an empty event list. -/
def emptyLog : MissionLog :=
  { mission_id := "M0", mission_name := "Empty Mission", start_time := dt0,
    vessel_name := "USS Example", events := [] }

/-- Helper: the string-level image of the dedup loop, carrying the set of
already-seen texts. -/
def firstSeenAvoid : List String → List String → List String
| [], _ => []
| a :: l, seen =>
  if a ∈ seen then firstSeenAvoid l seen
  else a :: firstSeenAvoid l (a :: seen)

/-- Helper: a throwaway comparison value used as a list default. -/
def cmp0 : ComparisonResult :=
  { timestamp := dt0, event_description := "", actual_action := "",
    expected_action := "", compliance_status := "", doctrine_references := [],
    analysis := "", severity := none }

/-- Helper: a one-element comparison list that is non-compliant. -/
def cmpNC : ComparisonResult := { cmp0 with compliance_status := "non-compliant" }

/-- Helper: a one-element comparison list that is compliant. -/
def cmpC : ComparisonResult := { cmp0 with compliance_status := "compliant" }

/-- Helper: a concrete two-chunk vector store whose embedding maps every
query to the zero vector. -/
def vs1 : VectorStore :=
  { embed := fun _ => [0],
    entries := [([1], ⟨"chunk one", [("source_file", "doc.txt")]⟩),
                ([2], ⟨"chunk two", [("source_file", "doc.txt")]⟩)] }

/-- Helper: a concrete mission-log JSON object whose single event has an
unparseable timestamp. -/
def badData : MissionData :=
  { mission_id := some "M2",
    start_time := some (.str "2024-11-14T08:00:00Z"),
    events := some [{ timestamp := some (.str "not-a-date") }] }

/-! Theorems.  Each claim of the specification has exactly one theorem below,
with shared helper lemmas in between. -/

example : (parse_timestamp (.str "2024-11-14T08:00:00Z")).isOk = true := by decide
example : (parse_timestamp (.str "2024-11-14 08:00:00.25")).isOk = true := by decide
example : (parse_timestamp (.str "11/14/2024 08:00:00")).isOk = true := by decide
example : (parse_timestamp (.str "2024-13-14T08:00:00Z")).isOk = false := by decide
example : (parse_timestamp (.str "hello")).isOk = false := by decide
example : (parse_timestamp (.num 1731571200)).isOk = true := by decide
example : parse_timestamp (.str "2024-02-30 00:00:00") =
    .error "Could not parse timestamp: 2024-02-30 00:00:00" := by rfl

/-- C1 counterexample: on a speed_change event carrying a timestamp and a
speed but no tracking number, the code returns "partial" while the claim's
table ("partial when only timestamp is present, non-compliant otherwise")
demands "non-compliant". -/
theorem C1_counterexample :
    determine_compliance c1view = "partial" ∧
    spec_claimed_compliance c1view = "non-compliant" ∧
    determine_compliance c1view ≠ spec_claimed_compliance c1view := by
  refine ⟨rfl, rfl, ?_⟩
  decide

/-- C1 (amended): per-type classification of `_determine_compliance`: for
speed_change, "compliant" iff tracking number, timestamp and speed are all
present, "partial" iff the timestamp is present but not all three are, and
"non-compliant" iff the timestamp is absent; for contact_detection,
"compliant" iff tracking number and timestamp are present, else
"non-compliant"; "unclear" for every other event type. -/
theorem C1_compliance_table (e : EventView) :
    (e.event_type = "speed_change" →
      (determine_compliance e = "compliant" ↔
        e.tracking_number.isSome ∧ e.timestamp.isSome ∧ e.speed.isSome) ∧
      (determine_compliance e = "partial" ↔
        e.timestamp.isSome ∧
          ¬(e.tracking_number.isSome ∧ e.timestamp.isSome ∧ e.speed.isSome)) ∧
      (determine_compliance e = "non-compliant" ↔ e.timestamp = none)) ∧
    (e.event_type = "contact_detection" →
      (determine_compliance e = "compliant" ↔
        e.tracking_number.isSome ∧ e.timestamp.isSome) ∧
      (determine_compliance e = "non-compliant" ↔
        ¬(e.tracking_number.isSome ∧ e.timestamp.isSome))) ∧
    (e.event_type ≠ "speed_change" → e.event_type ≠ "contact_detection" →
      determine_compliance e = "unclear") := by
  obtain ⟨et, ts, tn, sp⟩ := e
  refine ⟨?_, ?_, ?_⟩
  · intro h
    change et = "speed_change" at h
    subst h
    cases ts <;> cases tn <;> cases sp <;> simp [determine_compliance]
  · intro h
    change et = "contact_detection" at h
    subst h
    cases ts <;> cases tn <;> simp [determine_compliance]
  · intro h1 h2
    change et ≠ "speed_change" at h1
    change et ≠ "contact_detection" at h2
    simp [determine_compliance, h1, h2]

/-- C1 witness: the amended table evaluated on concrete events of each type. -/
theorem C1_compliance_table_witness :
    determine_compliance
      { event_type := "speed_change", timestamp := some dt0,
        tracking_number := some "TRK-001", speed := some 15 } = "compliant" ∧
    determine_compliance
      { event_type := "mission_start", timestamp := some dt0,
        tracking_number := none, speed := none } = "unclear" := by
  constructor
  · exact ((C1_compliance_table _).1 rfl).1.mpr (by decide)
  · exact (C1_compliance_table _).2.2 (by decide) (by decide)

/-- C9: for a well-typed `MissionEvent` (whose required timestamp is always
present), a speed_change event is never classified "non-compliant": the
classifier returns "compliant" or "partial". -/
theorem C9_speed_change_never_noncompliant (e : MissionEvent)
    (h : e.event_type = "speed_change") :
    determine_compliance e.view ≠ "non-compliant" ∧
    (determine_compliance e.view = "compliant" ∨
     determine_compliance e.view = "partial") := by
  simp only [determine_compliance, MissionEvent.view, h, if_pos]
  split_ifs with h1 h2
  · exact ⟨by decide, Or.inl rfl⟩
  · exact ⟨by decide, Or.inr rfl⟩
  · exact absurd (by simp) h2

/-- C9 witness: a concrete speed_change event lacking every optional field is
still not "non-compliant". -/
theorem C9_speed_change_never_noncompliant_witness :
    determine_compliance
      (MissionEvent.view
        { timestamp := dt0, event_type := "speed_change",
          description := "Increased speed" }) ≠ "non-compliant" :=
  (C9_speed_change_never_noncompliant
    { timestamp := dt0, event_type := "speed_change",
      description := "Increased speed" } rfl).1

/-- C2: the overall compliance score is compliant-count divided by total
count times 100, and 0 for an empty comparison list; `analyze_mission`
recomputes it from the final comparison list with the same formula as the
summary stage (`summary_compliance_score`). -/
theorem C2_score_law :
    (∀ l : List ComparisonResult,
      overall_score_of l =
        (if l.length = 0 then 0
         else (count_status l "compliant" : ℚ) / (l.length : ℚ) * 100) ∧
      overall_score_of l = summary_compliance_score l) ∧
    (∀ (sf : String → Nat → List Document) (now : DateTime) (log : MissionLog)
        (r : MissionAnalysis),
      analyze_mission sf now log = .ok r →
      r.overall_compliance_score = some (overall_score_of r.comparisons)) := by
  constructor
  · intro l
    rcases l with _ | ⟨a, l⟩ <;>
      simp [overall_score_of, summary_compliance_score]
  · intro sf now log r h
    simp only [analyze_mission, analyze_events_node] at h
    rcases hg : generate_summary_node
        (compare_actions_node (retrieve_doctrine_node sf log) log) log with m | out
    · rw [hg] at h
      exact absurd h (by simp)
    · rw [hg] at h
      cases h
      rfl

/-- C2 witness: the pipeline run on a concrete one-event log yields an
analysis whose stored score is the recomputed score of its comparisons. -/
theorem C2_score_law_witness :
    ∃ r, analyze_mission (fun _ _ => []) dt0 log1 = .ok r ∧
      r.overall_compliance_score = some (overall_score_of r.comparisons) :=
  ⟨_, rfl, C2_score_law.2 (fun _ _ => []) dt0 log1 _ rfl⟩

/-- C3 counterexample: the EventExtraction stage does not validate that the
log has events — on an empty-events log it succeeds, returning an empty
comparison list and no current event; the failure the claim attributes to it
actually arises in the summary stage, whose f-string divides by the zero
total, and that is the error `analyze_mission` surfaces. -/
theorem C3_counterexample :
    analyze_events_node emptyLog = .ok ([], none) ∧
    generate_summary_node [] emptyLog =
      .error "ZeroDivisionError: division by zero" ∧
    analyze_mission (fun _ _ => []) dt0 emptyLog =
      .error "ZeroDivisionError: division by zero" :=
  ⟨rfl, rfl, rfl⟩

/-- C3 (amended): the EventExtraction stage performs no has-events
validation and succeeds on an empty log; nevertheless, for every MissionLog
with an empty events list, `analyze_mission` fails with the triggering error
(a ZeroDivisionError raised while the summary stage formats its report)
rather than returning a MissionAnalysis. -/
theorem C3_empty_events (sf : String → Nat → List Document) (now : DateTime)
    (log : MissionLog) (h : log.events = []) :
    analyze_events_node log = .ok ([], none) ∧
    analyze_mission sf now log = .error "ZeroDivisionError: division by zero" := by
  constructor
  · simp [analyze_events_node, h]
  · simp [analyze_mission, analyze_events_node, compare_actions_node, h,
      generate_summary_node]

/-- C3 witness: the amended behavior on the concrete empty log. -/
theorem C3_empty_events_witness :
    analyze_mission (fun _ _ => [⟨"chunk", []⟩]) dt0 emptyLog =
      .error "ZeroDivisionError: division by zero" :=
  (C3_empty_events (fun _ _ => [⟨"chunk", []⟩]) dt0 emptyLog rfl).2

/-- Helper: `dedup_go` only looks at chunk texts. -/
theorem dedup_go_map (ds : List Document) (seen : List String) :
    (dedup_go ds seen).map Document.page_content =
      firstSeenAvoid (ds.map Document.page_content) seen := by
  induction ds generalizing seen with
  | nil => rfl
  | cons d ds ih =>
    simp only [dedup_go, List.map_cons, firstSeenAvoid]
    split_ifs with h
    · exact ih seen
    · simp [ih]

/-- Helper: `firstSeenAvoid` only depends on the membership of the seen set. -/
theorem firstSeenAvoid_congr (l : List String) (s1 s2 : List String)
    (h : ∀ x, x ∈ s1 ↔ x ∈ s2) :
    firstSeenAvoid l s1 = firstSeenAvoid l s2 := by
  induction l generalizing s1 s2 with
  | nil => rfl
  | cons a l ih =>
    simp only [firstSeenAvoid]
    by_cases ha : a ∈ s1
    · rw [if_pos ha, if_pos ((h a).mp ha), ih s1 s2 h]
    · rw [if_neg ha, if_neg (fun hx => ha ((h a).mpr hx))]
      congr 1
      refine ih _ _ (fun x => ?_)
      simp [h x]

/-- Helper: seeding the seen set with `a` is the same as filtering `a` out of
the remaining input. -/
theorem firstSeenAvoid_cons (a : String) (l : List String) (seen : List String) :
    firstSeenAvoid l (a :: seen) =
      firstSeenAvoid (l.filter (fun b => b != a)) seen := by
  induction l generalizing seen with
  | nil => rfl
  | cons b l ih =>
    rw [List.filter_cons]
    by_cases hba : b = a
    · subst hba
      simp only [bne_self_eq_false, Bool.false_eq_true, if_false]
      have hL : firstSeenAvoid (b :: l) (b :: seen) = firstSeenAvoid l (b :: seen) := by
        simp only [firstSeenAvoid]
        rw [if_pos (List.mem_cons_self b seen)]
      rw [hL]
      exact ih seen
    · have hbne : (b != a) = true := bne_iff_ne.mpr hba
      rw [hbne, if_pos rfl]
      simp only [firstSeenAvoid]
      by_cases hbs : b ∈ seen
      · rw [if_pos (List.mem_cons_of_mem a hbs), if_pos hbs]
        exact ih seen
      · have hnot : b ∉ a :: seen := by
          simp [hba, hbs]
        rw [if_neg hnot, if_neg hbs]
        congr 1
        rw [firstSeenAvoid_congr l (b :: a :: seen) (a :: b :: seen)
          (by intro x; constructor <;> (intro hx; simp at hx ⊢; tauto))]
        exact ih (b :: seen)

/-- Helper: with an empty seen set the loop computes the spec's first-seen
deduplication. -/
theorem firstSeenAvoid_nil (l : List String) :
    firstSeenAvoid l [] = firstSeenDedup l := by
  induction l using firstSeenDedup.induct with
  | case1 => simp [firstSeenDedup, firstSeenAvoid]
  | case2 a l ih =>
    have hL : firstSeenAvoid (a :: l) [] = a :: firstSeenAvoid l [a] := by
      simp [firstSeenAvoid]
    rw [hL, firstSeenAvoid_cons, ih, firstSeenDedup]

/-- Helper: the spec-side deduplication keeps each distinct element exactly
once. -/
theorem count_firstSeenDedup (l : List String) (x : String) :
    (firstSeenDedup l).count x = if x ∈ l then 1 else 0 := by
  induction l using firstSeenDedup.induct with
  | case1 => simp [firstSeenDedup]
  | case2 a l ih =>
    rw [firstSeenDedup, List.count_cons, ih]
    by_cases hxa : x = a
    · subst hxa
      have : x ∉ l.filter (fun b => b != x) := by
        simp [List.mem_filter]
      simp [this]
    · have : x ∈ l.filter (fun b => b != a) ↔ x ∈ l := by
        simp [List.mem_filter, bne_iff_ne, hxa]
      simp [this, List.mem_cons, hxa, Ne.symm hxa]

/-- C4: DoctrineRetrieval issues one "<event_type>: <description>" query with
k = 3 for each of at most the first 5 events in log order, concatenates the
results in that order, and deduplicates by exact chunk text keeping the first
occurrence: the result's texts are the spec's first-seen deduplication of the
concatenation, and each distinct text appears exactly once. -/
theorem C4_retrieval (sf : String → Nat → List Document) (log : MissionLog) :
    retrieve_doctrine_node sf log =
      dedup_go (((log.events.take 5).map event_query).flatMap (fun q => sf q 3)) [] ∧
    (retrieve_doctrine_node sf log).map Document.page_content =
      firstSeenDedup
        ((((log.events.take 5).map event_query).flatMap (fun q => sf q 3)).map
          Document.page_content) ∧
    ∀ x : String,
      ((retrieve_doctrine_node sf log).map Document.page_content).count x =
        if x ∈ (((log.events.take 5).map event_query).flatMap
            (fun q => sf q 3)).map Document.page_content
        then 1 else 0 := by
  have h0 : retrieve_doctrine_node sf log =
      dedup_go (((log.events.take 5).map event_query).flatMap (fun q => sf q 3)) [] := by
    simp [retrieve_doctrine_node, List.map_take]
  refine ⟨h0, ?_, ?_⟩
  · rw [h0, dedup_go_map, firstSeenAvoid_nil]
  · intro x
    rw [h0, dedup_go_map, firstSeenAvoid_nil, count_firstSeenDedup]

/-- Helper: `_analyze_event_against_doctrine` always returns a result, with
these exact fields. -/
theorem analyze_event_eq (e : MissionEvent) (T : String) (ctx : List Document) :
    analyze_event_against_doctrine e T ctx = some
      { timestamp := e.timestamp,
        event_description := e.description,
        actual_action := e.description,
        expected_action := get_expected_action_for_event e T,
        compliance_status := determine_compliance e.view,
        doctrine_references := (ctx.take 2).map (fun doc =>
          { doctrine_id := doc.metaGet "source_file" "unknown",
            doctrine_name := doc.metaGet "source_file" "Naval Doctrine",
            «section» := "General",
            requirement := doc.page_content.take 200,
            context := doc.page_content }),
        analysis := generate_event_analysis e (get_expected_action_for_event e T)
          e.description (determine_compliance e.view),
        severity := some (determine_severity (determine_compliance e.view)) } := rfl

/-- Helper: the comparison list is the event list mapped through the per-event
analysis. -/
theorem compare_actions_node_eq (ctx : List Document) (log : MissionLog) :
    compare_actions_node ctx log = log.events.map (fun e =>
      { timestamp := e.timestamp,
        event_description := e.description,
        actual_action := e.description,
        expected_action := get_expected_action_for_event e (doctrine_text_of ctx),
        compliance_status := determine_compliance e.view,
        doctrine_references := (ctx.take 2).map (fun doc =>
          { doctrine_id := doc.metaGet "source_file" "unknown",
            doctrine_name := doc.metaGet "source_file" "Naval Doctrine",
            «section» := "General",
            requirement := doc.page_content.take 200,
            context := doc.page_content }),
        analysis := generate_event_analysis e
          (get_expected_action_for_event e (doctrine_text_of ctx))
          e.description (determine_compliance e.view),
        severity := some (determine_severity (determine_compliance e.view)) }) := by
  show log.events.filterMap _ = _
  induction log.events with
  | nil => rfl
  | cons e es ih =>
    rw [List.filterMap_cons, List.map_cons, analyze_event_eq, ih]

/-- C5: ComplianceEvaluation produces exactly one ComparisonResult per event
of the whole log, in log order (witnessed by matching timestamps and
descriptions pointwise), and each result carries at most two doctrine
references whose contexts are the first two retrieved chunks in retrieval
order; in `analyze_mission` the context fed to this stage is exactly the
deduplicated retrieval output. -/
theorem C5_per_event (ctx : List Document) (log : MissionLog) :
    (compare_actions_node ctx log).length = log.events.length ∧
    (compare_actions_node ctx log).map
        (fun c => (c.timestamp, c.event_description)) =
      log.events.map (fun e => (e.timestamp, e.description)) ∧
    (∀ c ∈ compare_actions_node ctx log,
      c.doctrine_references.length ≤ 2 ∧
      c.doctrine_references.map DoctrineReference.context =
        (ctx.take 2).map Document.page_content) ∧
    (∀ (sf : String → Nat → List Document) (now : DateTime) (r : MissionAnalysis),
      analyze_mission sf now log = .ok r →
      r.comparisons = compare_actions_node (retrieve_doctrine_node sf log) log) := by
  refine ⟨?_, ?_, ?_, ?_⟩
  · rw [compare_actions_node_eq]
    simp
  · rw [compare_actions_node_eq, List.map_map]
    rfl
  · intro c hc
    rw [compare_actions_node_eq] at hc
    obtain ⟨e, _, rfl⟩ := List.mem_map.mp hc
    constructor
    · simp [List.length_take_le]
    · rw [List.map_map]
      rfl
  · intro sf now r h
    simp only [analyze_mission, analyze_events_node] at h
    rcases hg : generate_summary_node
        (compare_actions_node (retrieve_doctrine_node sf log) log) log with m | out
    · rw [hg] at h
      exact absurd h (by simp)
    · rw [hg] at h
      cases h
      rfl

/-- C5 witness: the per-event guarantees evaluated on a concrete log and
context, and on a concrete pipeline run. -/
theorem C5_per_event_witness :
    (((compare_actions_node [⟨"chunk one", []⟩] log1).headD cmp0).doctrine_references.length ≤ 2 ∧
     ((compare_actions_node [⟨"chunk one", []⟩] log1).headD cmp0).doctrine_references.map
        DoctrineReference.context =
       (([⟨"chunk one", []⟩] : List Document).take 2).map Document.page_content) ∧
    ∃ r, analyze_mission (fun _ _ => []) dt0 log1 = .ok r ∧
      r.comparisons =
        compare_actions_node (retrieve_doctrine_node (fun _ _ => []) log1) log1 := by
  constructor
  · exact (C5_per_event [⟨"chunk one", []⟩] log1).2.2.1
      ((compare_actions_node [⟨"chunk one", []⟩] log1).headD cmp0)
      (by rw [compare_actions_node_eq]; simp [log1])
  · exact ⟨_, rfl, (C5_per_event [] log1).2.2.2 (fun _ _ => []) dt0 _ rfl⟩

/-- C6: the summary stage's lessons-learned block emits its non-compliant
entry whenever a non-compliant comparison exists, its partial entry whenever
a partial comparison exists, and exactly the single "excellent adherence"
entry when all comparisons are compliant; the two training/checklist
recommendations appear exactly when a non-compliant or partial comparison
exists, and the constant post-mission-debriefs recommendation is always
last. -/
theorem C6_summary_outputs (l : List ComparisonResult) :
    ((∃ c ∈ l, c.compliance_status = "non-compliant") →
      (toString (count_status l "non-compliant") ++
        " events did not meet doctrine requirements - ensure proper documentation procedures are followed")
        ∈ lessons_learned_of l) ∧
    ((∃ c ∈ l, c.compliance_status = "partial") →
      (toString (count_status l "partial") ++
        " events had partial compliance - review checklist for complete event logging")
        ∈ lessons_learned_of l) ∧
    ((∀ c ∈ l, c.compliance_status = "compliant") →
      lessons_learned_of l =
        ["All events properly documented according to doctrine - excellent adherence to procedures"]) ∧
    (("Conduct refresher training on event documentation requirements"
        ∈ recommendations_of l ∧
      "Implement pre-mission checklist review of documentation procedures"
        ∈ recommendations_of l) ↔
      ∃ c ∈ l, c.compliance_status = "non-compliant" ∨
        c.compliance_status = "partial") ∧
    (recommendations_of l).getLast? =
      some "Continue post-mission debriefs to reinforce lessons learned" := by
  have hpos : ∀ s : String,
      (∃ c ∈ l, c.compliance_status = s) ↔ 0 < count_status l s := by
    intro s
    rw [count_status, List.countP_pos_iff]
    simp
  refine ⟨?_, ?_, ?_, ?_, ?_⟩
  · intro h
    have hc := (hpos _).mp h
    simp [lessons_learned_of, hc]
  · intro h
    have hc := (hpos _).mp h
    by_cases hnc : 0 < count_status l "non-compliant" <;>
      simp [lessons_learned_of, hc, hnc]
  · intro h
    have hnc : count_status l "non-compliant" = 0 := by
      rw [count_status, List.countP_eq_zero]
      intro c hc
      simp [h c hc]
    have hp : count_status l "partial" = 0 := by
      rw [count_status, List.countP_eq_zero]
      intro c hc
      simp [h c hc]
    have hcc : count_status l "compliant" = l.length := by
      rw [count_status, List.countP_eq_length]
      intro c hc
      simp [h c hc]
    simp [lessons_learned_of, hnc, hp, hcc]
  · by_cases hcond : 0 < count_status l "non-compliant" ∨
        0 < count_status l "partial"
    · constructor
      · intro _
        rcases hcond with h | h
        · obtain ⟨c, hc, hs⟩ := (hpos "non-compliant").mpr h
          exact ⟨c, hc, Or.inl hs⟩
        · obtain ⟨c, hc, hs⟩ := (hpos "partial").mpr h
          exact ⟨c, hc, Or.inr hs⟩
      · intro _
        constructor <;> simp [recommendations_of, hcond]
    · constructor
      · intro hmem
        exfalso
        have hrec : recommendations_of l =
            ["Continue post-mission debriefs to reinforce lessons learned"] := by
          simp [recommendations_of, hcond]
        have h1 := hmem.1
        rw [hrec, List.mem_singleton] at h1
        exact absurd h1 (by decide)
      · intro h
        exfalso
        obtain ⟨c, hc, hs⟩ := h
        rcases hs with hs | hs
        · exact hcond (Or.inl ((hpos _).mp ⟨c, hc, hs⟩))
        · exact hcond (Or.inr ((hpos _).mp ⟨c, hc, hs⟩))
  · simp only [recommendations_of]
    split_ifs <;> rfl

/-- C6 witness: the lessons and recommendations evaluated on concrete
one-element comparison lists. -/
theorem C6_summary_outputs_witness :
    (toString (count_status [cmpNC] "non-compliant") ++
      " events did not meet doctrine requirements - ensure proper documentation procedures are followed")
      ∈ lessons_learned_of [cmpNC] ∧
    lessons_learned_of [cmpC] =
      ["All events properly documented according to doctrine - excellent adherence to procedures"] ∧
    (recommendations_of [cmpC]).getLast? =
      some "Continue post-mission debriefs to reinforce lessons learned" := by
  refine ⟨?_, ?_, ?_⟩
  · exact (C6_summary_outputs [cmpNC]).1 ⟨cmpNC, by simp, rfl⟩
  · exact (C6_summary_outputs [cmpC]).2.2.1
      (by intro c hc; rw [List.mem_singleton] at hc; subst hc; rfl)
  · exact (C6_summary_outputs [cmpC]).2.2.2.2

/-- C7: searching the doctrine store before any index exists fails with the
not-indexed error; once an index is installed, the search embeds the query
and returns the first k entries of a distance-sorted rearrangement of the
whole store — the k nearest chunks, with their metadata. -/
theorem C7_search (st : DoctrineIndexer) (query : String) (k : Nat) :
    (st.vector_store = none →
      st.search query k =
        .error "Vector store not initialized. Call index_doctrines() first.") ∧
    (∀ vs, st.vector_store = some vs →
      ∃ ranked : List (ℚ × Document),
        ranked.Perm (scoredEntries vs query) ∧
        ranked.Sorted distLE ∧
        st.search query k = .ok ((ranked.take k).map Prod.snd)) := by
  constructor
  · intro h
    simp [DoctrineIndexer.search, h]
  · intro vs h
    refine ⟨(scoredEntries vs query).insertionSort distLE,
      List.perm_insertionSort distLE _, List.sorted_insertionSort distLE _, ?_⟩
    simp [DoctrineIndexer.search, h, similarity_search]

/-- C7 witness: the not-indexed error on a fresh store, and the sorted-search
guarantee on a concrete indexed store. -/
theorem C7_search_witness :
    DoctrineIndexer.search {} "speed change" 3 =
      .error "Vector store not initialized. Call index_doctrines() first." ∧
    ∃ ranked : List (ℚ × Document),
      ranked.Perm (scoredEntries vs1 "speed change") ∧
      ranked.Sorted distLE ∧
      DoctrineIndexer.search { vector_store := some vs1 } "speed change" 3 =
        .ok ((ranked.take 3).map Prod.snd) :=
  ⟨(C7_search {} "speed change" 3).1 rfl,
   (C7_search { vector_store := some vs1 } "speed change" 3).2 vs1 rfl⟩

/-- Helper: `Except.isOk` on a success value. -/
theorem except_isOk_ok {e a : Type} (v : a) : (Except.ok v : Except e a).isOk = true := rfl

/-- Helper: `Except.isOk` on an error value. -/
theorem except_isOk_error {e a : Type} (m : e) : (Except.error m : Except e a).isOk = false := rfl

/-- Helper: `parse_event` fails whenever its timestamp value fails to parse. -/
theorem parse_event_fail (ed : EventData) (ts : TsIn) (h1 : ed.timestamp = some ts)
    (h2 : (parse_timestamp ts).isOk = false) :
    (parse_event ed).isOk = false := by
  cases hp : parse_timestamp ts with
  | error m => simp [parse_event, h1, hp, except_isOk_ok, except_isOk_error]
  | ok v => rw [hp] at h2; simp [except_isOk_ok, except_isOk_error] at h2

/-- Helper: the event list comprehension fails as a whole as soon as one event
fails to parse. -/
theorem parse_events_mem_error (es : List EventData) (ed : EventData)
    (hmem : ed ∈ es) (hfail : (parse_event ed).isOk = false) :
    ∃ m, parse_events es = .error m := by
  induction es with
  | nil => cases hmem
  | cons e es ih =>
    cases hpe : parse_event e with
    | error m => exact ⟨m, by simp [parse_events, hpe]⟩
    | ok v =>
      rcases List.mem_cons.mp hmem with rfl | hmem2
      · rw [hpe] at hfail
        simp [except_isOk_ok, except_isOk_error] at hfail
      · obtain ⟨m, hm⟩ := ih hmem2
        exact ⟨m, by simp [parse_events, hpe, hm]⟩

/-- C8: a string timestamp parses exactly when it matches one of the five
formats (ISO-8601 with "Z" with or without fractional seconds, space-separated
with or without fractional seconds, US-style), numeric values are accepted as
Unix epochs, any other JSON value raises, and an unparseable timestamp in any
event makes the whole mission-log parse fail (no partial MissionLog). -/
theorem C8_timestamp_formats :
    (∀ s : String, (parse_timestamp (.str s)).isOk = true ↔
      ((strptime fmtIsoFracZ s).isSome = true ∨
       (strptime fmtIsoZ s).isSome = true ∨
       (strptime fmtSpace s).isSome = true ∨
       (strptime fmtSpaceFrac s).isSome = true ∨
       (strptime fmtUS s).isSome = true)) ∧
    (∀ q : ℚ, (parse_timestamp (.num q)).isOk = true) ∧
    ((parse_timestamp .other).isOk = false) ∧
    (∀ (data : MissionData) (ed : EventData) (ts : TsIn),
      ed ∈ data.events.getD [] → ed.timestamp = some ts →
      (parse_timestamp ts).isOk = false →
      ∃ m, parse_json_data data = .error m) := by
  refine ⟨?_, fun q => rfl, rfl, ?_⟩
  · intro s
    rcases h1 : strptime fmtIsoFracZ s with _ | d1 <;>
    rcases h2 : strptime fmtIsoZ s with _ | d2 <;>
    rcases h3 : strptime fmtSpace s with _ | d3 <;>
    rcases h4 : strptime fmtSpaceFrac s with _ | d4 <;>
    rcases h5 : strptime fmtUS s with _ | d5 <;>
      simp [parse_timestamp, tryFormats, timestampFormats, h1, h2, h3, h4, h5,
        except_isOk_ok, except_isOk_error]
  · intro data ed ts hmem hts hfail
    obtain ⟨m, hm⟩ :=
      parse_events_mem_error (data.events.getD []) ed hmem
        (parse_event_fail ed ts hts hfail)
    exact ⟨m, by simp [parse_json_data, hm]⟩

/-- C8 witness: the format equivalence and the whole-parse failure evaluated
on concrete inputs. -/
theorem C8_timestamp_formats_witness :
    ((parse_timestamp (.str "2024-11-14T08:00:00Z")).isOk = true) ∧
    (parse_timestamp (.num (3 : ℚ))).isOk = true ∧
    (∃ m, parse_json_data badData = .error m) := by
  refine ⟨?_, C8_timestamp_formats.2.1 3, ?_⟩
  · exact (C8_timestamp_formats.1 "2024-11-14T08:00:00Z").mpr
      (Or.inr (Or.inl (by decide)))
  · exact C8_timestamp_formats.2.2.2 badData
      { timestamp := some (.str "not-a-date") } (.str "not-a-date")
      (by simp [badData]) rfl (by decide)

/-- C10: event parsing fails exactly when the timestamp field is missing or
unparseable; every other field is read with a default — a missing event_type
becomes "unknown", a missing description the empty string, missing metadata
the empty map, and the optional fields pass through unchanged. -/
theorem C10_event_parse (ed : EventData) :
    ((parse_event ed).isOk = true ↔
      ∃ ts, ed.timestamp = some ts ∧ (parse_timestamp ts).isOk = true) ∧
    ∀ ev, parse_event ed = .ok ev →
      ev.event_type = ed.event_type.getD "unknown" ∧
      ev.description = ed.description.getD "" ∧
      ev.metadata = ed.metadata.getD [] ∧
      ev.tracking_number = ed.tracking_number ∧
      ev.speed = ed.speed ∧
      ev.course = ed.course ∧
      ev.latitude = ed.latitude ∧
      ev.longitude = ed.longitude := by
  constructor
  · cases hts : ed.timestamp with
    | none => simp [parse_event, hts, except_isOk_ok, except_isOk_error]
    | some ts =>
      cases hp : parse_timestamp ts with
      | error m => simp [parse_event, hts, hp, except_isOk_ok, except_isOk_error]
      | ok v => simp [parse_event, hts, hp, except_isOk_ok, except_isOk_error]
  · intro ev h
    cases hts : ed.timestamp with
    | none => simp [parse_event, hts] at h
    | some ts =>
      cases hp : parse_timestamp ts with
      | error m => simp [parse_event, hts, hp] at h
      | ok v =>
        simp only [parse_event, hts, hp, Except.ok.injEq] at h
        subst h
        exact ⟨rfl, rfl, rfl, rfl, rfl, rfl, rfl, rfl⟩

/-- C10 witness: a concrete event object carrying only a timestamp parses
with all documented defaults. -/
theorem C10_event_parse_witness :
    ∃ ev, parse_event { timestamp := some (.str "2024-11-14 08:00:00") } = .ok ev ∧
      ev.event_type = "unknown" ∧ ev.description = "" ∧ ev.metadata = [] :=
  ⟨_, rfl,
    ((C10_event_parse { timestamp := some (.str "2024-11-14 08:00:00") }).2 _ rfl).1,
    ((C10_event_parse { timestamp := some (.str "2024-11-14 08:00:00") }).2 _ rfl).2.1,
    ((C10_event_parse { timestamp := some (.str "2024-11-14 08:00:00") }).2 _ rfl).2.2.1⟩
